import Mathlib

/-!
Verification of the Credential Resolution & Secure Ingestion subsystem of
RoryGlenn/stripe-cli.

The Go source is shallowly embedded: each Go function that a claim touches
becomes an executable Lean definition over explicit state (the process
environment and the filesystem are passed as values), and external
collaborators (the secure store, the HTTP account fetch, the dotenv file
parser) are parameters whose outcomes are arguments of the embedded
functions.
-/

namespace StripeCLI

/-! ## Environment model

The process environment is an association list; `os.LookupEnv` is
`List.lookup` and `os.Setenv` conses a binding.  `godotenv.Read` returns a
map from names to values, modelled the same way. -/

/-- A process environment or a parsed dotenv file: name/value bindings. -/
abbrev Env : Type := List (String × String)

/-- `os.LookupEnv`. -/
def Env.lookupVar (e : Env) (k : String) : Option String :=
  List.lookup k e

/-- `os.Setenv`. -/
def Env.setVar (e : Env) (k v : String) : Env :=
  (k, v) :: e

/-! ## Dotenv ingestion (`src/pkg/cmd/dotenv.go`) -/

/-- The two global flags consulted by `loadDotenvFromFlags`:
`envFile` (the `--env-file` value, `""` when absent) and
`dotenv` (the `--dotenv` boolean flag). -/
structure DotenvFlags where
  envFile : String
  dotenv : Bool
deriving DecidableEq, Repr

/-- Result of `os.Stat` on the chosen path: the file does not exist,
`Stat` failed for another reason, or the file exists with the given
permission bits. -/
inductive StatResult where
  | notExist : StatResult
  | statErr : String → StatResult
  | present : Nat → StatResult
deriving DecidableEq, Repr

/-- The filesystem as seen by `loadDotenvFromFlags`: `os.Stat` and
`godotenv.Read` on a path. -/
structure FileSystem where
  stat : String → StatResult
  readDotenv : String → Except String Env

/-- Outcome of `loadDotenvFromFlags`: either a normal return carrying the
process environment after the call, or a `panic` (fatal to the process)
carrying its message. -/
inductive Outcome where
  | ok : Env → Outcome
  | panic : String → Outcome
deriving DecidableEq, Repr

/-- The `switch` at the top of `loadDotenvFromFlags`: decide which file to
use and whether ingestion was explicitly requested. -/
def choosePath (fl : DotenvFlags) : String × Bool :=
  if fl.envFile ≠ "" then (fl.envFile, true)
  else if fl.dotenv then (".env", true)
  else (".env", false)

/-- The fixed allow-list of variable names (`dotenv.go` lines 78-81). -/
def allowlist : List String :=
  ["STRIPE_SECRET_KEY", "STRIPE_DEVICE_NAME"]

/-- One iteration of the allow-list loop (`dotenv.go` lines 83-90): if the
file defines `k` and the process environment does not already bind `k`,
set it; otherwise leave the environment unchanged. -/
def setIfUnset (fileEnv : Env) (env : Env) (k : String) : Env :=
  match fileEnv.lookupVar k with
  | some v =>
    match env.lookupVar k with
    | none => env.setVar k v
    | some _ => env
  | none => env

/-- The allow-list loop of `loadDotenvFromFlags`. -/
def applyAllowlist (fileEnv : Env) (env : Env) : Env :=
  allowlist.foldl (setIfUnset fileEnv) env

/-- `loadDotenvFromFlags` (`src/pkg/cmd/dotenv.go`): decide the path and
intent, stat the file, enforce the world-readable check, read the file
and take in allow-listed variables that are not already set.  A Go `panic`
becomes `Outcome.panic`. -/
def loadDotenvFromFlags (fl : DotenvFlags) (fs : FileSystem) (env : Env) :
    Outcome :=
  let pe := choosePath fl
  let path := pe.1
  let explicitlyRequested := pe.2
  match fs.stat path with
  | StatResult.notExist =>
    if explicitlyRequested then
      Outcome.panic ("failed to load " ++ path ++ ": file not found")
    else
      Outcome.ok env
  | StatResult.statErr _ =>
    if explicitlyRequested then
      Outcome.panic ("failed to stat " ++ path)
    else
      Outcome.ok env
  | StatResult.present mode =>
    if mode &&& 0o004 ≠ 0 then
      -- world-readable: warning is logged in every case
      if explicitlyRequested then
        Outcome.panic (".env file has insecure permissions: " ++ path)
      else
        Outcome.ok env
    else
      match fs.readDotenv path with
      | Except.error _ => Outcome.panic ("failed to load " ++ path)
      | Except.ok fileEnv => Outcome.ok (applyAllowlist fileEnv env)

/-! ## Profile data model (spec §3, `pkg/config.Profile`) -/

/-- One named credential set.  `testModeAPIKey` is the sandbox-tier key,
`liveModeAPIKey` the production-tier key; `none` means the field is not
populated. -/
structure Profile where
  projectName : String
  accountID : Option String := none
  displayName : Option String := none
  deviceName : Option String := none
  testModeAPIKey : Option String := none
  liveModeAPIKey : Option String := none
  testModeKeyExpiresAt : Option String := none
  liveModeKeyExpiresAt : Option String := none
deriving DecidableEq, Repr

/-! ## Plaintext profile serialization

Modelled from the spec: `ProfileStore.CreateProfile` lives in
`pkg/config`, which is not among the provided source files.  Spec §4.3:
"the write path only ever emits sandbox-tier fields and descriptive
metadata"; spec §6 lists the fields of the plaintext file as `account_id`,
`display_name`, `test_mode_api_key`, `test_mode_key_expires_at`,
`live_mode_key_expires_at`, and states that `live_mode_api_key` must never
appear there. -/

/-- Emit an optional field as zero or one key/value pairs. -/
def optField (k : String) : Option String → List (String × String)
  | some v => [(k, v)]
  | none => []

/-- Modelled from the spec: the key/value pairs `CreateProfile` writes to
the profile's block of the plaintext file (spec §4.3 and §6).  Only
sandbox-tier fields and descriptive metadata are consulted. -/
def serializeProfile (p : Profile) : List (String × String) :=
  optField "account_id" p.accountID ++
  optField "display_name" p.displayName ++
  optField "device_name" p.deviceName ++
  optField "test_mode_api_key" p.testModeAPIKey ++
  optField "test_mode_key_expires_at" p.testModeKeyExpiresAt ++
  optField "live_mode_key_expires_at" p.liveModeKeyExpiresAt

/-- Replace the production-tier key field of a profile. -/
def setProductionKey (p : Profile) (x : Option String) : Profile :=
  { p with liveModeAPIKey := x }

/-! ## Redaction

Modelled from the spec: `RedactAPIKey` lives in `pkg/config`, which is not
among the provided source files.  Spec §4.4: deterministic, never returns
the raw secret, preserves a stable identifying prefix and masks the
remainder; §9 leaves the exact mask rule open.  We keep the first eight
characters and mask the rest with asterisks, always emitting at least four
mask characters so the output is never the input. -/

/-- Modelled from the spec: display-safe masking of a secret
(`RedactAPIKey`).  The output has length `s.length + 4`, so it never
coincides with `s`. -/
def RedactAPIKey (s : String) : String :=
  String.mk (s.data.take 8 ++ List.replicate (s.data.length - 8 + 4) '*')

/-! ## Credential resolution

Modelled from the spec: `CredentialResolver.Resolve`
(`pkg/config.Profile.GetAPIKey`) lives in `pkg/config`, which is not among
the provided source files.  Spec §4.1 gives the precedence: a set,
non-empty environment override for the mode wins unconditionally; in
production mode the secure store is consulted under
`<ProjectName>.live_mode_api_key`; in sandbox mode the plaintext
`SandboxKey` field is consulted; otherwise the key is absent
(`found = false`), with no fallback between modes. -/

/-- Credential tier being resolved. -/
inductive Mode where
  | sandbox : Mode
  | production : Mode
deriving DecidableEq, Repr

/-- Everything `Resolve` consults: the per-mode environment override, the
secure store (a partial map over namespaced keys), and the profile. -/
structure ResolveCtx where
  envOverride : Mode → Option String
  secureStore : String → Option String
  profile : Profile

/-- Modelled from the spec: stored-value lookup, tiers 2 and 3 of the
precedence in spec §4.1. -/
def resolveStored (ctx : ResolveCtx) (m : Mode) : String × Bool :=
  match m with
  | Mode.production =>
    match ctx.secureStore (ctx.profile.projectName ++ ".live_mode_api_key") with
    | some v => (v, true)
    | none => ("", false)
  | Mode.sandbox =>
    match ctx.profile.testModeAPIKey with
    | some v => (v, true)
    | none => ("", false)

/-- Modelled from the spec: `Resolve(profile, mode) -> (key, found)`
(spec §4.1).  A set, non-empty environment override wins unconditionally;
otherwise the stored value for the mode is used. -/
def Resolve (ctx : ResolveCtx) (m : Mode) : String × Bool :=
  match ctx.envOverride m with
  | some v => if v = "" then resolveStored ctx m else (v, true)
  | none => resolveStored ctx m

/-! ## Expiry staleness (`src/unnamed/part_001`, whoami lines 140-147)

The whoami command warns when `time.Now().After(exp.Add(24 * time.Hour))`,
i.e. strictly more than 24 hours past the expiry.  Times are modelled as
integer hours; a missing expiry is `none`. -/

/-- `IsStale`: the staleness test of the whoami expiry warning.  `expiry`
and `now` are times in hours; `none` means no recorded expiry. -/
def IsStale (expiry : Option Int) (now : Int) : Bool :=
  match expiry with
  | none => false
  | some e => decide (now > e + 24)

/-! ## The whoami command (`src/unnamed/part_001`)

The serialized output record.  Go string fields tagged `omitempty` are
modelled as `Option String`, `none` meaning the field is omitted from the
output; the two has-key booleans carry no `omitempty` and are always
present.  The `GetAPIKey` calls are opaque (`pkg/config`); their outcomes
are parameters: `Except.error e` models a non-nil error, in which case the
accompanying key value is the zero value `""`. -/

/-- The key-related part of `whoamiOutput` (whoami lines 17-31). -/
structure WhoamiOutput where
  hasTestKey : Bool
  hasLiveKey : Bool
  testKeyExp : Option String
  liveKeyExp : Option String
  testAPIKey : Option String
  liveAPIKey : Option String
deriving DecidableEq, Repr

/-- `v != ""` on the value carried by a `GetAPIKey` outcome. -/
def keyNonEmpty (res : Except String String) : Bool :=
  match res with
  | Except.ok v => decide (v ≠ "")
  | Except.error _ => false

/-- The key value of a `GetAPIKey` outcome (`""` on error, as in Go). -/
def keyValue (res : Except String String) : String :=
  match res with
  | Except.ok v => v
  | Except.error _ => ""

/-- Lines 70-93 of the whoami command: compute the has-key booleans from
the `GetAPIKey` outcomes, copy the expiry strings, and fill the redacted
key fields only when `showKeys` is set and the mode has a key. -/
def buildWhoamiOutput (testRes liveRes : Except String String)
    (testExp liveExp : Option String) (showKeys : Bool) : WhoamiOutput :=
  let hasTest := keyNonEmpty testRes
  let hasLive := keyNonEmpty liveRes
  { hasTestKey := hasTest
    hasLiveKey := hasLive
    testKeyExp := testExp
    liveKeyExp := liveExp
    testAPIKey :=
      if showKeys && hasTest then some (RedactAPIKey (keyValue testRes))
      else none
    liveAPIKey :=
      if showKeys && hasLive then some (RedactAPIKey (keyValue liveRes))
      else none }

/-- The `RunE` body of the whoami command: it errors only when no active
profile is configured (lines 45-48); for a configured profile it always
returns the built output record. -/
def whoamiRun (prof : Option Profile) (testRes liveRes : Except String String)
    (testExp liveExp : Option String) (showKeys : Bool) :
    Except String WhoamiOutput :=
  match prof with
  | none => Except.error "no active profile found"
  | some _ =>
    Except.ok (buildWhoamiOutput testRes liveRes testExp liveExp showKeys)

/-! ## LoginWithAPIKey (`src/pkg/login/api_key_login.go`)

External collaborators (`validators.APIKey`, `os.Hostname`,
`getDisplayName`, `Profile.CreateProfile`, `SuccessMessage`) are
parameters carrying their outcomes. -/

/-- Go's `strings.TrimSpace`: drop leading and trailing whitespace. -/
def trimSpace (s : String) : String :=
  String.mk
    (((s.data.dropWhile Char.isWhitespace).reverse.dropWhile
        Char.isWhitespace).reverse)

/-- Outcomes of the external calls made by `LoginWithAPIKey`.
`validateAPIKey` returns `some e` on a validation error; `createProfile`
returns `some e` when the profile write fails. -/
structure LoginDeps where
  validateAPIKey : String → Option String
  hostname : Except String String
  getDisplayName : Except String String
  createProfile : Option String
  successMessage : Except String String

/-- What a run of `LoginWithAPIKey` produced: the returned error (`none`
is Go `nil`), the profile persisted by `CreateProfile` (`none` when no
write happened), and the lines printed to stdout. -/
structure LoginResult where
  returned : Option String
  persisted : Option Profile
  printed : List String
deriving DecidableEq, Repr

/-- `LoginWithAPIKey` (`api_key_login.go` lines 17-53): trim and validate
the key, default the device name from the hostname (or `"unknown"`), store
the key as the test mode key, fetch the display name ignoring its error,
write the profile, then print the setup-verification message — swallowing
a verification error after printing it. -/
def LoginWithAPIKey (d : LoginDeps) (p0 : Profile) (apiKey : String) :
    LoginResult :=
  let key := trimSpace apiKey
  match d.validateAPIKey key with
  | some e => { returned := some e, persisted := none, printed := [] }
  | none =>
    let hostName :=
      match d.hostname with
      | Except.ok h => h
      | Except.error _ => "unknown"
    let p1 :=
      if trimSpace (p0.deviceName.getD "") = "" then
        { p0 with deviceName := some hostName }
      else p0
    let p2 := { p1 with testModeAPIKey := some key }
    let p3 := { p2 with displayName := some (keyValue d.getDisplayName) }
    match d.createProfile with
    | some e => { returned := some e, persisted := none, printed := [] }
    | none =>
      match d.successMessage with
      | Except.error e =>
        { returned := none
          persisted := some p3
          printed :=
            ["> Error verifying the CLI was setup successfully: " ++ e] }
      | Except.ok m =>
        { returned := none, persisted := some p3, printed := ["> " ++ m] }

/-! ## Lemmas about environment lookup and the allow-list loop -/

theorem lookupVar_setVar (e : Env) (k v j : String) :
    (e.setVar k v).lookupVar j = if j = k then some v else e.lookupVar j := by
  by_cases h : j = k
  · simp [Env.setVar, Env.lookupVar, List.lookup, h]
  · have hbeq : (j == k) = false := by
      rcases hb : j == k with _ | _
      · rfl
      · exact absurd (eq_of_beq hb) h
    simp [Env.setVar, Env.lookupVar, List.lookup, h, hbeq]

theorem lookupVar_setIfUnset (fileEnv env : Env) (k j : String)
    (h : j ≠ k ∨ (env.lookupVar j).isSome) :
    (setIfUnset fileEnv env k).lookupVar j = env.lookupVar j := by
  unfold setIfUnset
  cases hf : fileEnv.lookupVar k with
  | none => rfl
  | some v =>
    cases he : env.lookupVar k with
    | some w => rfl
    | none =>
      rw [lookupVar_setVar]
      have hjk : j ≠ k := by
        rcases h with h | h
        · exact h
        · intro heq
          rw [heq, he] at h
          exact Bool.noConfusion h
      simp [hjk]

theorem lookupVar_foldl (fileEnv : Env) (l : List String) (env : Env)
    (j : String) (h : j ∉ l ∨ (env.lookupVar j).isSome) :
    (l.foldl (setIfUnset fileEnv) env).lookupVar j = env.lookupVar j := by
  induction l generalizing env with
  | nil => rfl
  | cons k tl ih =>
    rw [List.foldl_cons]
    have hstep : (setIfUnset fileEnv env k).lookupVar j = env.lookupVar j := by
      apply lookupVar_setIfUnset
      rcases h with h | h
      · exact Or.inl (fun hjk => h (hjk ▸ List.mem_cons_self k tl))
      · exact Or.inr h
    rw [ih (setIfUnset fileEnv env k) ?_, hstep]
    rcases h with h | h
    · exact Or.inl (fun hmem => h (List.mem_cons_of_mem k hmem))
    · exact Or.inr (by rw [hstep]; exact h)

theorem choosePath_expl_true (fl : DotenvFlags)
    (h : fl.envFile ≠ "" ∨ fl.dotenv = true) : (choosePath fl).2 = true := by
  unfold choosePath
  split_ifs with h1 h2 <;> simp_all

theorem choosePath_expl_false (fl : DotenvFlags) (h1 : fl.envFile = "")
    (h2 : fl.dotenv = false) : (choosePath fl).2 = false := by
  unfold choosePath
  split_ifs <;> simp_all

/-- C5: if the environment file does not exist, `loadDotenvFromFlags` is a
fatal error when an explicit path was given or the auto-load flag was set,
and a silent successful no-op (the environment is unchanged) when neither
was given. -/
theorem dotenv_missing_file_policy (fl : DotenvFlags) (fs : FileSystem)
    (env : Env) (h : fs.stat (choosePath fl).1 = StatResult.notExist) :
    ((fl.envFile ≠ "" ∨ fl.dotenv = true) →
      loadDotenvFromFlags fl fs env =
        Outcome.panic
          ("failed to load " ++ (choosePath fl).1 ++ ": file not found")) ∧
    (fl.envFile = "" ∧ fl.dotenv = false →
      loadDotenvFromFlags fl fs env = Outcome.ok env) := by
  constructor
  · intro hexp
    unfold loadDotenvFromFlags
    dsimp only
    rw [h, choosePath_expl_true fl hexp]
    rfl
  · rintro ⟨h1, h2⟩
    unfold loadDotenvFromFlags
    dsimp only
    rw [h, choosePath_expl_false fl h1 h2]
    rfl

/-- Witness for C5: with no flags set and a missing `.env`, the call is a
no-op that leaves the environment unchanged. -/
theorem dotenv_missing_file_policy_witness :
    loadDotenvFromFlags ⟨"", false⟩
      ⟨fun _ => StatResult.notExist, fun _ => Except.error "unused"⟩
      [("STRIPE_SECRET_KEY", "existing")] =
      Outcome.ok [("STRIPE_SECRET_KEY", "existing")] :=
  (dotenv_missing_file_policy ⟨"", false⟩
    ⟨fun _ => StatResult.notExist, fun _ => Except.error "unused"⟩
    [("STRIPE_SECRET_KEY", "existing")] rfl).2 ⟨rfl, rfl⟩

/-- C3: if the environment file exists and its permission bits have the
world-readable bit 0004 set, an explicit request is a fatal error, while
auto-load returns normally with the process environment unchanged (no
variable is set from the file). -/
theorem dotenv_world_readable_policy (fl : DotenvFlags) (fs : FileSystem)
    (env : Env) (m : Nat)
    (hstat : fs.stat (choosePath fl).1 = StatResult.present m)
    (hworld : m &&& 0o004 ≠ 0) :
    ((fl.envFile ≠ "" ∨ fl.dotenv = true) →
      loadDotenvFromFlags fl fs env =
        Outcome.panic
          (".env file has insecure permissions: " ++ (choosePath fl).1)) ∧
    (fl.envFile = "" ∧ fl.dotenv = false →
      loadDotenvFromFlags fl fs env = Outcome.ok env) := by
  constructor
  · intro hexp
    unfold loadDotenvFromFlags
    dsimp only
    rw [hstat, choosePath_expl_true fl hexp]
    simp [hworld]
  · rintro ⟨h1, h2⟩
    unfold loadDotenvFromFlags
    dsimp only
    rw [hstat, choosePath_expl_false fl h1 h2]
    simp [hworld]

/-- Witness for C3: a world-readable (0644) `.env` under auto-load is
skipped and sets nothing; the same file under an explicit `--env-file`
request panics. -/
theorem dotenv_world_readable_policy_witness :
    loadDotenvFromFlags ⟨"", false⟩
      ⟨fun _ => StatResult.present 0o644,
       fun _ => Except.ok [("STRIPE_SECRET_KEY", "sk_test_insecure")]⟩
      [] = Outcome.ok [] ∧
    loadDotenvFromFlags ⟨"insecure.env", false⟩
      ⟨fun _ => StatResult.present 0o644,
       fun _ => Except.ok [("STRIPE_SECRET_KEY", "sk_test_insecure")]⟩
      [] = Outcome.panic
        (".env file has insecure permissions: " ++ "insecure.env") :=
  ⟨(dotenv_world_readable_policy ⟨"", false⟩
      ⟨fun _ => StatResult.present 0o644,
       fun _ => Except.ok [("STRIPE_SECRET_KEY", "sk_test_insecure")]⟩
      [] 0o644 rfl (by decide)).2 ⟨rfl, rfl⟩,
   (dotenv_world_readable_policy ⟨"insecure.env", false⟩
      ⟨fun _ => StatResult.present 0o644,
       fun _ => Except.ok [("STRIPE_SECRET_KEY", "sk_test_insecure")]⟩
      [] 0o644 rfl (by decide)).1 (Or.inl (by decide))⟩

/-- C4: a successful (non-panicking) run of `loadDotenvFromFlags` leaves
every environment variable that is not in the allow-list, and every
variable that was already set before the call, with exactly its prior
value. -/
theorem dotenv_load_frame (fl : DotenvFlags) (fs : FileSystem)
    (env env' : Env)
    (hok : loadDotenvFromFlags fl fs env = Outcome.ok env') (j : String)
    (h : j ∉ allowlist ∨ (env.lookupVar j).isSome) :
    env'.lookupVar j = env.lookupVar j := by
  revert hok
  unfold loadDotenvFromFlags
  dsimp only
  rcases hstat : fs.stat (choosePath fl).1 with _ | s | m <;>
    rcases hb : (choosePath fl).2 with _ | _ <;> intro hok
  · simp only [Bool.false_eq_true, if_false, Outcome.ok.injEq] at hok
    rw [← hok]
  · simp at hok
  · simp only [Bool.false_eq_true, if_false, Outcome.ok.injEq] at hok
    rw [← hok]
  · simp at hok
  · by_cases h4 : m &&& 0o004 = 0
    · simp only [h4, ne_eq, not_true_eq_false, if_false] at hok
      rcases hread : fs.readDotenv (choosePath fl).1 with e | fileEnv <;>
        rw [hread] at hok <;> simp at hok
      rw [← hok]
      exact lookupVar_foldl fileEnv allowlist env j h
    · simp [h4] at hok
      rw [← hok]
  · by_cases h4 : m &&& 0o004 = 0
    · simp only [h4, ne_eq, not_true_eq_false, if_false] at hok
      rcases hread : fs.readDotenv (choosePath fl).1 with e | fileEnv <;>
        rw [hread] at hok <;> simp at hok
      rw [← hok]
      exact lookupVar_foldl fileEnv allowlist env j h
    · simp [h4] at hok

/-- Witness for C4: loading a secure file that defines both allow-listed
names and a foreign name, over an environment that already binds
`STRIPE_SECRET_KEY`, keeps the prior secret-key binding and never imports
the foreign name. -/
theorem dotenv_load_frame_witness :
    (Env.lookupVar
        [("STRIPE_DEVICE_NAME", "dev"), ("STRIPE_SECRET_KEY", "existing")]
        "STRIPE_SECRET_KEY" =
      Env.lookupVar [("STRIPE_SECRET_KEY", "existing")]
        "STRIPE_SECRET_KEY") ∧
    (Env.lookupVar
        [("STRIPE_DEVICE_NAME", "dev"), ("STRIPE_SECRET_KEY", "existing")]
        "EVIL" =
      Env.lookupVar [("STRIPE_SECRET_KEY", "existing")] "EVIL") :=
  ⟨dotenv_load_frame ⟨"", false⟩
    ⟨fun _ => StatResult.present 0o600,
     fun _ => Except.ok
       [("STRIPE_SECRET_KEY", "sk_file"), ("STRIPE_DEVICE_NAME", "dev"),
        ("EVIL", "x")]⟩
    [("STRIPE_SECRET_KEY", "existing")]
    [("STRIPE_DEVICE_NAME", "dev"), ("STRIPE_SECRET_KEY", "existing")]
    (by decide) "STRIPE_SECRET_KEY" (Or.inr (by decide)),
   dotenv_load_frame ⟨"", false⟩
    ⟨fun _ => StatResult.present 0o600,
     fun _ => Except.ok
       [("STRIPE_SECRET_KEY", "sk_file"), ("STRIPE_DEVICE_NAME", "dev"),
        ("EVIL", "x")]⟩
    [("STRIPE_SECRET_KEY", "existing")]
    [("STRIPE_DEVICE_NAME", "dev"), ("STRIPE_SECRET_KEY", "existing")]
    (by decide) "EVIL" (Or.inl (by decide))⟩

/-- C2 counterexample: with neither flag set (pure auto-load of its own
initiative), an existing `.env` with secure permissions 0600 whose parse
fails makes `loadDotenvFromFlags` panic — the failure is fatal, not
swallowed, contradicting the claim that every auto-load failure mode is
logged and swallowed. -/
theorem dotenv_autoload_parse_error_cex :
    (DotenvFlags.mk "" false).envFile = "" ∧
    (DotenvFlags.mk "" false).dotenv = false ∧
    loadDotenvFromFlags ⟨"", false⟩
      ⟨fun _ => StatResult.present 0o600,
       fun _ => Except.error "malformed line"⟩ [] =
      Outcome.panic ("failed to load " ++ ".env") :=
  ⟨rfl, rfl, by decide⟩

/-- C2 amended: `loadDotenvFromFlags` panics exactly when either (a)
ingestion was explicitly requested and the stat failed, the file is
missing, or the file is world-readable, or (b) — in any mode, auto-load
included — the file exists with secure permissions and reading/parsing it
fails.  All other auto-load failures are swallowed. -/
theorem dotenv_failure_policy (fl : DotenvFlags) (fs : FileSystem)
    (env : Env) :
    (∃ msg, loadDotenvFromFlags fl fs env = Outcome.panic msg) ↔
    (((choosePath fl).2 = true ∧
       (fs.stat (choosePath fl).1 = StatResult.notExist ∨
        (∃ s, fs.stat (choosePath fl).1 = StatResult.statErr s) ∨
        (∃ m, fs.stat (choosePath fl).1 = StatResult.present m ∧
          m &&& 0o004 ≠ 0))) ∨
     (∃ m, fs.stat (choosePath fl).1 = StatResult.present m ∧
        m &&& 0o004 = 0 ∧
        ∃ e, fs.readDotenv (choosePath fl).1 = Except.error e)) := by
  unfold loadDotenvFromFlags
  dsimp only
  rcases hstat : fs.stat (choosePath fl).1 with _ | s | m <;>
    rcases hb : (choosePath fl).2 with _ | _
  · simp [hb]
  · simp [hb]
  · simp [hb]
  · simp [hb]
  · by_cases h4 : m &&& 0o004 = 0
    · rcases hread : fs.readDotenv (choosePath fl).1 with e | fileEnv <;>
        simp [hb, h4, hread]
    · simp [hb, h4]
  · by_cases h4 : m &&& 0o004 = 0
    · rcases hread : fs.readDotenv (choosePath fl).1 with e | fileEnv <;>
        simp [hb, h4, hread]
    · simp [hb, h4]

/-- C6: a key is flagged stale exactly when the current time is more than
24 hours past the recorded expiry; in particular `IsStale` is false at
`now = expiry`, false at `expiry + 23h`, true at `expiry + 25h`, and a
missing expiry date is never stale. -/
theorem IsStale_policy (e now : Int) :
    (IsStale (some e) now = true ↔ now > e + 24) ∧
    IsStale none now = false ∧
    IsStale (some e) e = false ∧
    IsStale (some e) (e + 23) = false ∧
    IsStale (some e) (e + 25) = true := by
  refine ⟨by simp [IsStale], rfl, by simp [IsStale], by simp [IsStale],
    by simp [IsStale]⟩

/-- C7: when the environment override for a mode is set and non-empty,
`Resolve` returns exactly that override with `found = true`, whatever the
plaintext profile field and the secure store hold. -/
theorem Resolve_env_override (ctx : ResolveCtx) (m : Mode) (v : String)
    (hset : ctx.envOverride m = some v) (hne : v ≠ "") :
    Resolve ctx m = (v, true) := by
  unfold Resolve
  rw [hset]
  simp [hne]

/-- Witness for C7: the override beats a conflicting stored sandbox key
and a conflicting secure-store production key in both modes. -/
theorem Resolve_env_override_witness :
    Resolve
      ⟨fun _ => some "sk_env_override",
       fun _ => some "rk_live_stored",
       { projectName := "proj", testModeAPIKey := some "sk_test_stored" }⟩
      Mode.sandbox = ("sk_env_override", true) ∧
    Resolve
      ⟨fun _ => some "sk_env_override",
       fun _ => some "rk_live_stored",
       { projectName := "proj", testModeAPIKey := some "sk_test_stored" }⟩
      Mode.production = ("sk_env_override", true) :=
  ⟨Resolve_env_override _ Mode.sandbox "sk_env_override" rfl (by decide),
   Resolve_env_override _ Mode.production "sk_env_override" rfl (by decide)⟩

/-- C8: redaction is deterministic — the same secret always redacts to
the same output — and the redacted form never equals the raw secret. -/
theorem RedactAPIKey_deterministic_ne (s : String) :
    RedactAPIKey s = RedactAPIKey s ∧ RedactAPIKey s ≠ s := by
  refine ⟨rfl, fun hcontra => ?_⟩
  have hd : (RedactAPIKey s).data = s.data := congrArg String.data hcontra
  have hlen :
      (s.data.take 8 ++ List.replicate (s.data.length - 8 + 4) '*').length =
        s.data.length := by
    have : (RedactAPIKey s).data =
        s.data.take 8 ++ List.replicate (s.data.length - 8 + 4) '*' := rfl
    rw [this] at hd
    rw [hd]
  simp only [List.length_append, List.length_take, List.length_replicate]
    at hlen
  omega

/-- Witness for C8: redaction of a concrete sandbox-style key is stable
and differs from the key. -/
theorem RedactAPIKey_deterministic_ne_witness :
    RedactAPIKey "sk_test_1234abcd" = RedactAPIKey "sk_test_1234abcd" ∧
    RedactAPIKey "sk_test_1234abcd" ≠ "sk_test_1234abcd" :=
  RedactAPIKey_deterministic_ne "sk_test_1234abcd"

/-- C9: for a configured profile the whoami command never fails: the
output always carries the per-mode has-key booleans, true exactly when the
mode's key lookup succeeded with a non-empty key; the redacted key fields
are present only when keys were requested (and then hold the redacted key)
and are omitted when they were not; a failed key lookup surfaces as a
false boolean, never as a command error. -/
theorem whoami_output_policy (p : Profile)
    (testRes liveRes : Except String String)
    (testExp liveExp : Option String) (showKeys : Bool) :
    ∃ out, whoamiRun (some p) testRes liveRes testExp liveExp showKeys =
        Except.ok out ∧
      (out.hasTestKey = true ↔ ∃ v, testRes = Except.ok v ∧ v ≠ "") ∧
      (out.hasLiveKey = true ↔ ∃ v, liveRes = Except.ok v ∧ v ≠ "") ∧
      (showKeys = false → out.testAPIKey = none ∧ out.liveAPIKey = none) ∧
      (showKeys = true → out.hasTestKey = true →
        out.testAPIKey = some (RedactAPIKey (keyValue testRes))) ∧
      (showKeys = true → out.hasLiveKey = true →
        out.liveAPIKey = some (RedactAPIKey (keyValue liveRes))) ∧
      (∀ e, testRes = Except.error e → out.hasTestKey = false) ∧
      (∀ e, liveRes = Except.error e → out.hasLiveKey = false) := by
  refine ⟨buildWhoamiOutput testRes liveRes testExp liveExp showKeys, rfl,
    ?_, ?_, ?_, ?_, ?_, ?_, ?_⟩
  · cases testRes <;> simp [buildWhoamiOutput, keyNonEmpty]
  · cases liveRes <;> simp [buildWhoamiOutput, keyNonEmpty]
  · intro hsk
    simp [buildWhoamiOutput, hsk]
  · intro hsk hhas
    simp only [buildWhoamiOutput] at hhas ⊢
    simp [hsk, hhas]
  · intro hsk hhas
    simp only [buildWhoamiOutput] at hhas ⊢
    simp [hsk, hhas]
  · intro e he
    rw [he]
    simp [buildWhoamiOutput, keyNonEmpty]
  · intro e he
    rw [he]
    simp [buildWhoamiOutput, keyNonEmpty]

/-- Witness for C9: the spec scenario — a sandbox key from the plaintext
file and a production key from the secure store, with keys requested —
yields a successful run whose booleans are true and whose key fields are
the redacted values. -/
theorem whoami_output_policy_witness :
    ∃ out, whoamiRun (some { projectName := "test" })
        (Except.ok "sk_test_1234abcd") (Except.ok "rk_live_0000000001")
        (some "2099-01-02") (some "2099-02-03") true = Except.ok out ∧
      (out.hasTestKey = true ↔
        ∃ v, Except.ok "sk_test_1234abcd" =
          (Except.ok v : Except String String) ∧ v ≠ "") ∧
      (out.hasLiveKey = true ↔
        ∃ v, Except.ok "rk_live_0000000001" =
          (Except.ok v : Except String String) ∧ v ≠ "") ∧
      (true = false → out.testAPIKey = none ∧ out.liveAPIKey = none) ∧
      (true = true → out.hasTestKey = true →
        out.testAPIKey =
          some (RedactAPIKey (keyValue (Except.ok "sk_test_1234abcd")))) ∧
      (true = true → out.hasLiveKey = true →
        out.liveAPIKey =
          some (RedactAPIKey (keyValue (Except.ok "rk_live_0000000001")))) ∧
      (∀ e, (Except.ok "sk_test_1234abcd" : Except String String) =
        Except.error e → out.hasTestKey = false) ∧
      (∀ e, (Except.ok "rk_live_0000000001" : Except String String) =
        Except.error e → out.hasLiveKey = false) := by
  have h := whoami_output_policy { projectName := "test" }
    (Except.ok "sk_test_1234abcd") (Except.ok "rk_live_0000000001")
    (some "2099-01-02") (some "2099-02-03") true
  rcases h with ⟨out, h1, h2, h3, h4, h5, h6, h7, h8⟩
  exact ⟨out, h1, h2, h3, h4, h5, h6, h7, h8⟩

/-- C10: when key validation and the profile write succeed,
`LoginWithAPIKey` returns nil whatever the setup-verification outcome: a
verification error is printed and swallowed, and the persisted profile
remains in place. -/
theorem login_swallows_verification_error (d : LoginDeps) (p0 : Profile)
    (apiKey : String)
    (hval : d.validateAPIKey (trimSpace apiKey) = none)
    (hcp : d.createProfile = none) :
    (LoginWithAPIKey d p0 apiKey).returned = none ∧
    (LoginWithAPIKey d p0 apiKey).persisted.isSome = true ∧
    (∀ e, d.successMessage = Except.error e →
      (LoginWithAPIKey d p0 apiKey).printed =
        ["> Error verifying the CLI was setup successfully: " ++ e]) := by
  unfold LoginWithAPIKey
  dsimp only
  rw [hval]
  dsimp only
  rw [hcp]
  dsimp only
  rcases hsm : d.successMessage with e | m
  · dsimp only
    refine ⟨rfl, rfl, ?_⟩
    intro e' he'
    injection he' with hee
    rw [hee]
  · dsimp only
    refine ⟨rfl, rfl, ?_⟩
    intro e' he'
    exact Except.noConfusion he'

/-- Witness for C10: with passing validation, a successful profile write
and a failing verification call, login returns nil and prints the
verification error. -/
theorem login_swallows_verification_error_witness :
    (LoginWithAPIKey
      ⟨fun _ => none, Except.ok "host", Except.ok "Alice", none,
       Except.error "network down"⟩
      { projectName := "default" } "sk_test_123").returned = none ∧
    (LoginWithAPIKey
      ⟨fun _ => none, Except.ok "host", Except.ok "Alice", none,
       Except.error "network down"⟩
      { projectName := "default" } "sk_test_123").persisted.isSome = true ∧
    (LoginWithAPIKey
      ⟨fun _ => none, Except.ok "host", Except.ok "Alice", none,
       Except.error "network down"⟩
      { projectName := "default" } "sk_test_123").printed =
      ["> Error verifying the CLI was setup successfully: " ++
        "network down"] := by
  have h := login_swallows_verification_error
    ⟨fun _ => none, Except.ok "host", Except.ok "Alice", none,
     Except.error "network down"⟩
    { projectName := "default" } "sk_test_123" rfl rfl
  exact ⟨h.1, h.2.1, h.2.2 "network down" rfl⟩

/-- Every key/value pair emitted by `optField k o` has field name `k`. -/
theorem optField_fst {k : String} {o : Option String} {kv : String × String}
    (h : kv ∈ optField k o) : kv.1 = k := by
  cases o with
  | none => cases h
  | some v =>
    rw [optField, List.mem_singleton] at h
    rw [h]

/-- C1: the plaintext write path never emits the production key: the
serialized pairs do not depend on the `liveModeAPIKey` field at all, no
emitted field is named `live_mode_api_key`, and the profile persisted by
`LoginWithAPIKey` carries the user key in the sandbox tier only, leaving
the production-tier field exactly as it was. -/
theorem plaintext_never_production_key (p : Profile) (x : Option String) :
    serializeProfile (setProductionKey p x) = serializeProfile p ∧
    (∀ kv ∈ serializeProfile p, kv.1 ≠ "live_mode_api_key") ∧
    (∀ (d : LoginDeps) (q0 : Profile) (k : String) (q : Profile),
      (LoginWithAPIKey d q0 k).persisted = some q →
      q.liveModeAPIKey = q0.liveModeAPIKey ∧
      q.testModeAPIKey = some (trimSpace k)) := by
  refine ⟨rfl, ?_, ?_⟩
  · intro kv hkv
    simp only [serializeProfile, List.mem_append] at hkv
    rcases hkv with ((((h | h) | h) | h) | h) | h <;>
      rw [optField_fst h] <;> decide
  · intro d q0 k q hq
    unfold LoginWithAPIKey at hq
    dsimp only at hq
    rcases hv : d.validateAPIKey (trimSpace k) with _ | e <;>
      rw [hv] at hq <;> dsimp only at hq
    · rcases hc : d.createProfile with _ | e <;>
        rw [hc] at hq <;> dsimp only at hq
      · rcases hs : d.successMessage with e | m <;>
          rw [hs] at hq <;> dsimp only at hq <;>
          injection hq with hq' <;> rw [← hq'] <;>
          constructor <;> dsimp only <;> split <;> rfl
      · exact Option.noConfusion hq
    · exact Option.noConfusion hq

/-- Witness for C1: a fully-populated profile serializes identically with
and without a production key, and a concrete serialized pair is not the
production-key field. -/
theorem plaintext_never_production_key_witness :
    serializeProfile
      (setProductionKey
        { projectName := "test", accountID := some "acct_123",
          displayName := some "Alice",
          testModeAPIKey := some "sk_test_1234abcd",
          testModeKeyExpiresAt := some "2099-01-02",
          liveModeKeyExpiresAt := some "2099-02-03" }
        (some "rk_live_0000000001")) =
      serializeProfile
        { projectName := "test", accountID := some "acct_123",
          displayName := some "Alice",
          testModeAPIKey := some "sk_test_1234abcd",
          testModeKeyExpiresAt := some "2099-01-02",
          liveModeKeyExpiresAt := some "2099-02-03" } ∧
    (("test_mode_api_key", "sk_test_1234abcd") : String × String).1 ≠
      "live_mode_api_key" :=
  ⟨(plaintext_never_production_key
      { projectName := "test", accountID := some "acct_123",
        displayName := some "Alice",
        testModeAPIKey := some "sk_test_1234abcd",
        testModeKeyExpiresAt := some "2099-01-02",
        liveModeKeyExpiresAt := some "2099-02-03" }
      (some "rk_live_0000000001")).1,
   (plaintext_never_production_key
      { projectName := "test", accountID := some "acct_123",
        displayName := some "Alice",
        testModeAPIKey := some "sk_test_1234abcd",
        testModeKeyExpiresAt := some "2099-01-02",
        liveModeKeyExpiresAt := some "2099-02-03" }
      none).2.1 ("test_mode_api_key", "sk_test_1234abcd") (by decide)⟩

end StripeCLI
